import Mathlib

/-!
Verification of the heightmap-to-mesh geometry engine of `spellbook`
(`src/spellbook/src/Geometry/Image3D.js`).

The JavaScript source is embedded shallowly:

* JS numbers are modelled as exact rationals wrapped in `JNum`, a tagged
  type with explicit `+∞`, `-∞` and `NaN` values so that the unguarded
  division in `Image3D.update` (`duration / this.morphDuration_`) keeps its
  IEEE-754 behaviour (`x/0 = ±∞` for `x ≠ 0`, `0/0 = NaN`).  All values that
  actually arise in the verified scenarios are exactly representable, so the
  rational model is faithful.
* Stateful methods become pure state transformers that take the current
  wall-clock time as an explicit argument and return the new state together
  with the list of morph-weight pushes to the views and the list of
  dispatched events.
* The reference-counted content cache is not part of the sources under
  `src/`; its contract is modelled from the design document (section 4.1).
-/

/-- A JavaScript number: an exact rational, `+∞`, `-∞`, or `NaN`. -/
inductive JNum where
  | num (q : ℚ)
  | posInf
  | negInf
  | nan
  deriving DecidableEq, Repr

instance : OfNat JNum 0 := ⟨JNum.num 0⟩

instance : OfNat JNum 1 := ⟨JNum.num 1⟩

/-- JS division of two ordinary numbers (`a / b`), with IEEE behaviour at 0. -/
def jdiv (a b : ℚ) : JNum :=
  if b = 0 then
    if a > 0 then JNum.posInf else if a < 0 then JNum.negInf else JNum.nan
  else JNum.num (a / b)

/-- JS `>` comparison; any comparison involving `NaN` is false. -/
def jgt : JNum → JNum → Bool
  | JNum.nan, _ => false
  | _, JNum.nan => false
  | JNum.num a, JNum.num b => a > b
  | JNum.posInf, JNum.posInf => false
  | JNum.posInf, _ => true
  | JNum.negInf, _ => false
  | JNum.num _, JNum.posInf => false
  | JNum.num _, JNum.negInf => true

/-- JS subtraction on `JNum`. -/
def jsub : JNum → JNum → JNum
  | JNum.nan, _ => JNum.nan
  | _, JNum.nan => JNum.nan
  | JNum.num a, JNum.num b => JNum.num (a - b)
  | JNum.num _, JNum.posInf => JNum.negInf
  | JNum.num _, JNum.negInf => JNum.posInf
  | JNum.posInf, JNum.num _ => JNum.posInf
  | JNum.posInf, JNum.posInf => JNum.nan
  | JNum.posInf, JNum.negInf => JNum.posInf
  | JNum.negInf, JNum.num _ => JNum.negInf
  | JNum.negInf, JNum.posInf => JNum.negInf
  | JNum.negInf, JNum.negInf => JNum.nan

/-- JS addition on `JNum`. -/
def jadd : JNum → JNum → JNum
  | JNum.nan, _ => JNum.nan
  | _, JNum.nan => JNum.nan
  | JNum.num a, JNum.num b => JNum.num (a + b)
  | JNum.num _, JNum.posInf => JNum.posInf
  | JNum.num _, JNum.negInf => JNum.negInf
  | JNum.posInf, JNum.num _ => JNum.posInf
  | JNum.posInf, JNum.posInf => JNum.posInf
  | JNum.posInf, JNum.negInf => JNum.nan
  | JNum.negInf, JNum.num _ => JNum.negInf
  | JNum.negInf, JNum.posInf => JNum.nan
  | JNum.negInf, JNum.negInf => JNum.negInf

/-- JS multiplication on `JNum` (`±∞ * 0 = NaN`). -/
def jmul : JNum → JNum → JNum
  | JNum.nan, _ => JNum.nan
  | _, JNum.nan => JNum.nan
  | JNum.num a, JNum.num b => JNum.num (a * b)
  | JNum.num a, JNum.posInf =>
      if a > 0 then JNum.posInf else if a < 0 then JNum.negInf else JNum.nan
  | JNum.num a, JNum.negInf =>
      if a > 0 then JNum.negInf else if a < 0 then JNum.posInf else JNum.nan
  | JNum.posInf, JNum.num b =>
      if b > 0 then JNum.posInf else if b < 0 then JNum.negInf else JNum.nan
  | JNum.negInf, JNum.num b =>
      if b > 0 then JNum.negInf else if b < 0 then JNum.posInf else JNum.nan
  | JNum.posInf, JNum.posInf => JNum.posInf
  | JNum.posInf, JNum.negInf => JNum.negInf
  | JNum.negInf, JNum.posInf => JNum.negInf
  | JNum.negInf, JNum.negInf => JNum.posInf

/-- The morph-animator fields of an `Image3D` model
(initialised in `Image3D.initialize`, lines 260-266 of the source). -/
structure MorphState where
  morphing : Bool
  morphStartTime : ℚ
  morphDuration : ℚ
  morphElapsed : ℚ
  startMorphTargets : List JNum
  currentMorphTargets : List JNum
  endMorphTargets : List JNum
  deriving DecidableEq, Repr

/-- The initial morph-animator state set up by `Image3D.initialize`. -/
def MorphState.initial : MorphState :=
  { morphing := false
    morphStartTime := 0
    morphDuration := 0
    morphElapsed := 0
    startMorphTargets := [1, 0, 0, 0]
    currentMorphTargets := [1, 0, 0, 0]
    endMorphTargets := [1, 0, 0, 0] }

/-- Result of running a model method: the new morph state, the lists of
morph-target influences pushed to the view (`setMorphTargetInfluences_`
calls), and the dispatched event names. -/
structure MorphResult where
  state : MorphState
  pushes : List (List JNum)
  events : List String
  deriving DecidableEq, Repr

/-- The morphing branch of `Image3D.update` (source lines 299-329), with the
current wall-clock time `now` passed explicitly.  `time` is the unguarded
JS division `(now - morphStartTime_) / morphDuration_`. -/
def Image3D.update (s : MorphState) (now : ℚ) : MorphResult :=
  if s.morphing then
    let time := jdiv (now - s.morphStartTime) s.morphDuration
    if jgt time 1 then
      { state := { s with
          morphing := false
          morphDuration := 0
          morphElapsed := 0
          currentMorphTargets := s.endMorphTargets
          startMorphTargets := s.endMorphTargets }
        pushes := [s.endMorphTargets]
        events := ["morphEnd"] }
    else
      let invTime := jsub 1 time
      let current := List.zipWith
        (fun st en => jadd (jmul st invTime) (jmul en time))
        s.startMorphTargets s.endMorphTargets
      { state := { s with currentMorphTargets := current }
        pushes := [current]
        events := [] }
  else
    { state := s, pushes := [], events := [] }

/-- The weight vector built at the start of `Image3D.morph`
(source lines 553-554): `[0,0,0,0]` with slot `index - 1` set to `1`.
For `index = 0` the JS write targets array property `-1`, which leaves the
four indexed elements (and hence `slice`, iteration and length) unchanged. -/
def morphTargetInfluences (index : ℕ) : List JNum :=
  if index = 0 then [0, 0, 0, 0]
  else List.set [0, 0, 0, 0] (index - 1) 1

/-- The precondition asserted by `Image3D.morph` (source lines 550-551):
`index >= 0 && index < 4`. -/
def morphPre (index : ℕ) : Prop := index < 4

instance (index : ℕ) : Decidable (morphPre index) := by
  unfold morphPre; infer_instance

/-- `Image3D.morph` (source lines 545-582), with the wall-clock time of the
call passed explicitly as `now`. -/
def Image3D.morph (s : MorphState) (index : ℕ) (seconds : ℚ) (now : ℚ) :
    MorphResult :=
  let mti := morphTargetInfluences index
  if seconds > 0 then
    { state := { s with
        startMorphTargets := s.currentMorphTargets
        endMorphTargets := mti
        morphDuration := seconds * 1000
        morphStartTime := now
        morphElapsed := 0
        morphing := true }
      pushes := []
      events := ["morphBegin"] }
  else
    { state := { s with
        startMorphTargets := mti
        endMorphTargets := mti
        currentMorphTargets := mti
        morphing := false
        morphDuration := 0
        morphElapsed := 0 }
      pushes := [mti]
      events := [] }

/-- `Image3D.setMorphing` (source lines 727-745), with the wall-clock time
of the call passed explicitly as `now`. -/
def Image3D.setMorphing (s : MorphState) (morphing : Bool) (now : ℚ) :
    MorphState :=
  if !morphing && s.morphing then
    { s with morphing := false, morphElapsed := now - s.morphStartTime }
  else if morphing && !s.morphing then
    { s with morphing := true, morphStartTime := now - s.morphElapsed }
  else s

/-- A `THREE.Vector3` with exact rational coordinates. -/
structure Vec3 where
  x : ℚ
  y : ℚ
  z : ℚ
  deriving DecidableEq, Repr

/-- A `THREE.Face3`: a triangle given by three vertex indices. -/
structure Face3 where
  a : ℕ
  b : ℕ
  c : ℕ
  deriving DecidableEq, Repr

/-- A `THREE.Vector2` used for texture coordinates. -/
structure UV where
  u : ℚ
  v : ℚ
  deriving DecidableEq, Repr

/-- `Image3D.getDepth_` (source lines 1321-1329): average of the R, G, B
bytes at pixel offset `i`, scaled by `maxHeight / 255`. -/
def getDepth (maxHeight : ℚ) (data : ℕ → ℚ) (i : ℕ) : ℚ :=
  (data i + data (i + 1) + data (i + 2)) / 3 / 255 * maxHeight

/-- The vertex loop of `Image3D.createSmoothGeometry_` (source lines
821-835): one vertex per texel in row-major order; the running
`pixelIndex` for texel `(x, y)` is `(y*width + x) * 4`. -/
def smoothVertices (width height : ℕ) (maxHeight : ℚ) (data : ℕ → ℚ) :
    List Vec3 :=
  (List.range height).flatMap fun row =>
    (List.range width).map fun col =>
      let pixelIndex : ℕ := (row * width + col) * 4
      { x := (col : ℚ) * (1 / ((width : ℚ) - 1))
        y := (row : ℚ) * (1 / ((height : ℚ) - 1))
        z := getDepth maxHeight data pixelIndex }

/-- The face loop of `Image3D.createSmoothGeometry_` (source lines
838-874): two triangles per grid cell, with `yi = y*width` and
`yi2 = (y+1)*width`. -/
def smoothFaces (width height : ℕ) : List Face3 :=
  (List.range (height - 1)).flatMap fun y =>
    (List.range (width - 1)).flatMap fun x =>
      [ { a := y * width + x, b := y * width + (x + 1),
          c := (y + 1) * width + (x + 1) },
        { a := y * width + x, b := (y + 1) * width + (x + 1),
          c := (y + 1) * width + x } ]

/-- The per-face texture coordinates built alongside `smoothFaces`
(source lines 855-869). -/
def smoothFaceVertexUvs (width height : ℕ) : List (List UV) :=
  (List.range (height - 1)).flatMap fun y =>
    (List.range (width - 1)).flatMap fun x =>
      let u1 := (x : ℚ) * (1 / ((width : ℚ) - 1))
      let u2 := ((x : ℚ) + 1) * (1 / ((width : ℚ) - 1))
      let v1 := (y : ℚ) * (1 / ((height : ℚ) - 1))
      let v2 := ((y : ℚ) + 1) * (1 / ((height : ℚ) - 1))
      [ [⟨u1, v1⟩, ⟨u2, v1⟩, ⟨u2, v2⟩],
        [⟨u1, v1⟩, ⟨u2, v2⟩, ⟨u1, v2⟩] ]

/-- The vertex loop of `Image3D.createFloatGeometry_` (source lines
1129-1150): four unshared vertices per texel at the texel's own depth. -/
def floatVertices (width height : ℕ) (maxHeight : ℚ) (data : ℕ → ℚ) :
    List Vec3 :=
  (List.range height).flatMap fun y =>
    (List.range width).flatMap fun x =>
      let depth := getDepth maxHeight data (((y * width + x) * 4 : ℕ))
      let x1 := (x : ℚ) * (1 / (width : ℚ))
      let x2 := ((x : ℚ) + 1) * (1 / (width : ℚ))
      let y1 := (y : ℚ) * (1 / (height : ℚ))
      let y2 := ((y : ℚ) + 1) * (1 / (height : ℚ))
      [⟨x1, y1, depth⟩, ⟨x2, y1, depth⟩, ⟨x2, y2, depth⟩, ⟨x1, y2, depth⟩]

/-- The face loop of `Image3D.createFloatGeometry_` (source lines
1152-1187): two triangles per texel over its four private vertices. -/
def floatFaces (width height : ℕ) : List Face3 :=
  (List.range height).flatMap fun y =>
    (List.range width).flatMap fun x =>
      let i := (y * width + x) * 4
      [⟨i, i + 1, i + 2⟩, ⟨i, i + 2, i + 3⟩]

/-- The texture coordinates built alongside `floatFaces` (source lines
1163-1182), parameterised by the texture image dimensions. -/
def floatFaceVertexUvs (width height : ℕ) (imgW imgH : ℚ) :
    List (List UV) :=
  (List.range height).flatMap fun y =>
    (List.range width).flatMap fun x =>
      let xr := (x : ℚ) * (imgW / (width : ℚ))
      let yr := (y : ℚ) * (imgH / (height : ℚ))
      let u1 := (xr + 1/2) * (1 / imgW)
      let u2 := (xr + imgW / (width : ℚ) - 1/2) * (1 / imgW)
      let v1 := (yr + 1/2) * (1 / imgH)
      let v2 := (yr + imgH / (height : ℚ) - 1/2) * (1 / imgH)
      [ [⟨u1, v1⟩, ⟨u2, v1⟩, ⟨u2, v2⟩],
        [⟨u1, v1⟩, ⟨u2, v2⟩, ⟨u1, v2⟩] ]

/-- The depth table precalculated by `Image3D.createBlockGeometry_`
(source lines 911-921): `depths[y][x]`. -/
def blockDepths (width : ℕ) (maxHeight : ℚ) (data : ℕ → ℚ) :
    ℕ → ℕ → ℚ :=
  fun y x => getDepth maxHeight data ((y * width + x) * 4)

/-- The mutable build state of `Image3D.createBlockGeometry_`: the running
vertex-index counter `v` and the output buffers. -/
structure BlockBuild where
  v : ℕ
  vertices : List Vec3
  faces : List Face3
  faceVertexUvs : List (List UV)
  deriving DecidableEq, Repr

/-- One iteration of the texel loop of `Image3D.createBlockGeometry_`
(source lines 943-1083): a front quad at the texel's own depth, then a
conditional side quad per neighbor direction, emitted when the neighbor's
depth (0 for out-of-image neighbors) is strictly below the texel's. -/
def blockTexel (width height : ℕ) (imgW imgH : ℚ) (depths : ℕ → ℕ → ℚ)
    (createFaces : Bool) (s : BlockBuild) (y x : ℕ) : BlockBuild :=
  let depth := depths y x
  let depthLeft := if x > 0 then depths y (x - 1) else 0
  let depthTop := if y > 0 then depths (y - 1) x else 0
  let depthRight := if x < width - 1 then depths y (x + 1) else 0
  let depthBottom := if y < height - 1 then depths (y + 1) x else 0
  let x1 := (x : ℚ) * (1 / (width : ℚ))
  let x2 := ((x : ℚ) + 1) * (1 / (width : ℚ))
  let y1 := (y : ℚ) * (1 / (height : ℚ))
  let y2 := ((y : ℚ) + 1) * (1 / (height : ℚ))
  let xr := (x : ℚ) * (imgW / (width : ℚ))
  let yr := (y : ℚ) * (imgH / (height : ℚ))
  let u1 := (xr + 1/2) * (1 / imgW)
  let u2 := (xr + imgW / (width : ℚ) - 1/2) * (1 / imgW)
  let v1 := (yr + 1/2) * (1 / imgH)
  let v2 := (yr + imgH / (height : ℚ) - 1/2) * (1 / imgH)
  -- Front
  let j := s.v
  let s := { s with vertices := s.vertices ++
      [⟨x1, y1, depth⟩, ⟨x2, y1, depth⟩, ⟨x2, y2, depth⟩, ⟨x1, y2, depth⟩] }
  let s := if createFaces then
      { s with
        v := s.v + 4
        faces := s.faces ++ [⟨j, j + 1, j + 2⟩, ⟨j, j + 2, j + 3⟩]
        faceVertexUvs := s.faceVertexUvs ++
          [ [⟨u1, v1⟩, ⟨u2, v1⟩, ⟨u2, v2⟩],
            [⟨u1, v1⟩, ⟨u2, v2⟩, ⟨u1, v2⟩] ] }
    else s
  -- Left
  let s := if depth > depthLeft then
      let s := { s with vertices := s.vertices ++
          [⟨x1, y1, depthLeft⟩, ⟨x1, y2, depthLeft⟩] }
      if createFaces then
        { s with
          faces := s.faces ++ [⟨j, j + 3, s.v + 1⟩, ⟨j, s.v + 1, s.v⟩]
          faceVertexUvs := s.faceVertexUvs ++
            [ [⟨u1, v1⟩, ⟨u1, v2⟩, ⟨u1, v2⟩],
              [⟨u1, v1⟩, ⟨u1, v2⟩, ⟨u1, v1⟩] ]
          v := s.v + 2 }
      else s
    else s
  -- Right
  let s := if depth > depthRight then
      let s := { s with vertices := s.vertices ++
          [⟨x2, y1, depthRight⟩, ⟨x2, y2, depthRight⟩] }
      if createFaces then
        { s with
          faces := s.faces ++
            [⟨j + 2, j + 1, s.v + 0⟩, ⟨j + 2, s.v + 0, s.v + 1⟩]
          faceVertexUvs := s.faceVertexUvs ++
            [ [⟨u2, v2⟩, ⟨u2, v1⟩, ⟨u2, v1⟩],
              [⟨u2, v2⟩, ⟨u2, v1⟩, ⟨u2, v2⟩] ]
          v := s.v + 2 }
      else s
    else s
  -- Top
  let s := if depth > depthTop then
      let s := { s with vertices := s.vertices ++
          [⟨x1, y1, depthTop⟩, ⟨x2, y1, depthTop⟩] }
      if createFaces then
        { s with
          faces := s.faces ++ [⟨j + 1, j, s.v⟩, ⟨j + 1, s.v, s.v + 1⟩]
          faceVertexUvs := s.faceVertexUvs ++
            [ [⟨u2, v1⟩, ⟨u1, v1⟩, ⟨u1, v1⟩],
              [⟨u2, v1⟩, ⟨u1, v1⟩, ⟨u2, v1⟩] ]
          v := s.v + 2 }
      else s
    else s
  -- Bottom
  let s := if depth > depthBottom then
      let s := { s with vertices := s.vertices ++
          [⟨x1, y2, depthBottom⟩, ⟨x2, y2, depthBottom⟩] }
      if createFaces then
        { s with
          faces := s.faces ++
            [⟨j + 3, j + 2, s.v + 1⟩, ⟨j + 3, s.v + 1, s.v⟩]
          faceVertexUvs := s.faceVertexUvs ++
            [ [⟨u1, v2⟩, ⟨u2, v2⟩, ⟨u2, v2⟩],
              [⟨u1, v2⟩, ⟨u2, v2⟩, ⟨u1, v2⟩] ]
          v := s.v + 2 }
      else s
    else s
  s

/-- `Image3D.createBlockGeometry_` (source lines 888-1091): fold the texel
step over the heightmap in row-major order. -/
def blockBuild (width height : ℕ) (imgW imgH maxHeight : ℚ)
    (data : ℕ → ℚ) (createFaces : Bool) : BlockBuild :=
  (List.range height).foldl
    (fun s y =>
      (List.range width).foldl
        (fun s x =>
          blockTexel width height imgW imgH
            (blockDepths width maxHeight data) createFaces s y x)
        s)
    { v := 0, vertices := [], faces := [], faceVertexUvs := [] }

/-- The output buffers of one style algorithm run with `createFaces`. -/
structure BuiltGeometry where
  vertices : List Vec3
  faces : List Face3
  faceVertexUvs : List (List UV)
  deriving DecidableEq, Repr

/-- `Image3D.createHeightmapGeometry_` (source lines 1201-1221) with
`createFaces = true`: dispatch on the `geometryStyle_` string.  An
unrecognised style falls through the switch and produces nothing. -/
def createHeightmapGeometryFull (style : String) (width height : ℕ)
    (imgW imgH maxHeight : ℚ) (data : ℕ → ℚ) : BuiltGeometry :=
  if style = "smooth" then
    { vertices := smoothVertices width height maxHeight data
      faces := smoothFaces width height
      faceVertexUvs := smoothFaceVertexUvs width height }
  else if style = "block" then
    let b := blockBuild width height imgW imgH maxHeight data true
    { vertices := b.vertices, faces := b.faces
      faceVertexUvs := b.faceVertexUvs }
  else if style = "float" then
    { vertices := floatVertices width height maxHeight data
      faces := floatFaces width height
      faceVertexUvs := floatFaceVertexUvs width height imgW imgH }
  else
    { vertices := [], faces := [], faceVertexUvs := [] }

/-- `Image3D.createHeightmapGeometry_` with `createFaces = false`: only the
vertex sequence handed to the `verticesOwner` (for the block style the
source writes the vertices onto the geometry object itself). -/
def createHeightmapGeometryVertices (style : String) (width height : ℕ)
    (imgW imgH maxHeight : ℚ) (data : ℕ → ℚ) : List Vec3 :=
  if style = "smooth" then smoothVertices width height maxHeight data
  else if style = "block" then
    (blockBuild width height imgW imgH maxHeight data false).vertices
  else if style = "float" then floatVertices width height maxHeight data
  else []

/-- A morph target appended by `Image3D.createGeometry_`
(source lines 1269-1286). -/
structure MorphTarget where
  name : String
  vertices : List Vec3
  deriving DecidableEq, Repr

/-- A built model geometry: primary buffers plus the four morph targets. -/
structure GeometryRecord where
  vertices : List Vec3
  faces : List Face3
  faceVertexUvs : List (List UV)
  morphTargets : List MorphTarget
  deriving DecidableEq, Repr

/-- The geometry-construction part of `Image3D.createGeometry_`
(source lines 1249-1292, the cache interplay aside).  `datas i` is
`heightmapData_[i]` (`none` for an unpopulated slot; slot 0 must be
populated, a precondition of the load path).  For each of the four
morph-target slots, an unpopulated slot or slot 0 reuses the primary
vertex sequence; any other slot is rebuilt vertex-only from its buffer. -/
def createGeometryRecord (style : String) (width height : ℕ)
    (imgW imgH maxHeight : ℚ) (datas : ℕ → Option (ℕ → ℚ)) :
    GeometryRecord :=
  let primary := createHeightmapGeometryFull style width height imgW imgH
    maxHeight ((datas 0).getD fun _ => 0)
  let morphTargets := (List.range 4).map fun i =>
    match datas i with
    | none => { name := "target" ++ toString i, vertices := primary.vertices }
    | some d =>
        if i = 0 then
          { name := "target" ++ toString i, vertices := primary.vertices }
        else
          { name := "target" ++ toString i
            vertices := createHeightmapGeometryVertices style width height
              imgW imgH maxHeight d }
  { vertices := primary.vertices
    faces := primary.faces
    faceVertexUvs := primary.faceVertexUvs
    morphTargets := morphTargets }

/-- The assertion guarding morph targets for the block style
(source lines 1251-1267): `numValidHeightmaps <= 1 || geometryStyle_ !==
Block`. -/
def blockMorphTargetsOk (style : String) (datas : ℕ → Option (ℕ → ℚ)) :
    Prop :=
  ((List.range 4).countP fun i => (datas i).isSome) ≤ 1 ∨ style ≠ "block"

/-- The cache key built by `Image3D.createGeometry_`
(source lines 1230-1237) by string concatenation. -/
def geometryKey (imageSrc h1 h2 h3 h4 : String) (maxHeight : ℚ)
    (geometryStyle : String) : String :=
  "imageSrc: " ++ imageSrc ++ ", " ++
    "heightSrc1: " ++ h1 ++ ", " ++
    "heightSrc2: " ++ h2 ++ ", " ++
    "heightSrc3: " ++ h3 ++ ", " ++
    "heightSrc4: " ++ h4 ++ ", " ++
    "maxHeight: " ++ toString maxHeight ++ ", " ++
    "geometryStyle: " ++ geometryStyle ++ " (geometry)"

/-- An entry of the reference-counted content cache (spec section 4.1). -/
structure CacheEntry (α : Type) where
  key : String
  payload : α
  refcount : ℕ
  deriving DecidableEq, Repr

/-- Modelled from the spec: the Content Cache (section 4.1).  The cache
implementation (`this.cache` of the voodoo engine) is not among the sources
under `src/`; it is represented as an association list of entries. -/
def Cache (α : Type) : Type := List (CacheEntry α)

/-- `has(key)` of the Content Cache. -/
def Cache.has {α : Type} (c : Cache α) (k : String) : Bool :=
  List.any c fun e => e.key = k

/-- `get(key)` of the Content Cache, `none` when the key is absent. -/
def Cache.getPayload {α : Type} (c : Cache α) (k : String) : Option α :=
  Option.map (fun e => e.payload) (List.find? (fun e => e.key = k) c)

/-- The failure kinds of the Content Cache contract (spec section 4.1). -/
inductive CacheError where
  | keyCollision
  | notFound
  deriving DecidableEq, Repr

/-- Modelled from the spec: `set(key, payload)` inserts with refcount 1 and
fails with `KeyCollision` if the key is already present (spec section
4.1). -/
def Cache.set {α : Type} (c : Cache α) (k : String) (p : α) :
    Except CacheError (Cache α) :=
  if Cache.has c k then Except.error CacheError.keyCollision
  else Except.ok ({ key := k, payload := p, refcount := 1 } :: c)

/-- The refcount increment applied by `addRef` to a present key. -/
def Cache.bumpRef {α : Type} (c : Cache α) (k : String) : Cache α :=
  List.map (fun e =>
    if e.key = k then { e with refcount := e.refcount + 1 } else e) c

/-- Modelled from the spec: `addRef(key)` increments the refcount and fails
with `NotFound` if the key is absent (spec section 4.1). -/
def Cache.addRef {α : Type} (c : Cache α) (k : String) :
    Except CacheError (Cache α) :=
  if Cache.has c k then Except.ok (Cache.bumpRef c k)
  else Except.error CacheError.notFound

/-- The payload stored in the cache for a heightmap source (source lines
434-438 and 481-485): the decoding `Image`, the pixel buffer once decoded,
and the registered notifier list.  The image is represented by its
dimensions and the remaining fields by sizes, which is all the verified
properties inspect. -/
structure HeightmapPayload where
  imageWidth : ℕ
  imageHeight : ℕ
  hasData : Bool
  notifiers : ℕ
  deriving DecidableEq, Repr

/-- The cache operations performed by the fresh-load branch of
`Image3D.loadHeightmap_` (source lines 473-490): insert a pending entry
(`heightmapData: null`, no notifiers) for the new key. -/
def loadHeightmapFreshCacheOps (c : Cache HeightmapPayload) (k : String)
    (w h : ℕ) : Except CacheError (Cache HeightmapPayload) :=
  Cache.set c k
    { imageWidth := w, imageHeight := h, hasData := false, notifiers := 0 }

/-- The cache operations performed by the decode-completion handler
`onLoad` inside `Image3D.loadHeightmap_` (source lines 428-438): read the
notifier list and `addRef` when the key is present, then call `set` with a
fresh loaded payload. -/
def onLoadCacheOps (c : Cache HeightmapPayload) (k : String)
    (loaded : HeightmapPayload) : Except CacheError (Cache HeightmapPayload) :=
  let c1 := if Cache.has c k then Cache.bumpRef c k else c
  Cache.set c1 k loaded

/-- A JS value stored in `heightmaps_[index]` by `Image3D.loadHeightmap_`:
either an `Image` (fresh-decode branch, line 487, and pending branch, line
457) or — in the fully-loaded cache branch, line 468 — the cache payload
object itself. -/
inductive HeightmapSlotVal where
  | image (width height : ℕ)
  | cachePayload (p : HeightmapPayload)
  deriving DecidableEq, Repr

/-- JS property access `heightmap.width`: `undefined` (here `none`) when
the stored value is the cache payload object, which has no `width`. -/
def HeightmapSlotVal.width : HeightmapSlotVal → Option ℕ
  | HeightmapSlotVal.image w _ => some w
  | HeightmapSlotVal.cachePayload _ => none

/-- JS property access `heightmap.height`. -/
def HeightmapSlotVal.height : HeightmapSlotVal → Option ℕ
  | HeightmapSlotVal.image _ h => some h
  | HeightmapSlotVal.cachePayload _ => none

/-- The dimension bookkeeping of `Image3D.loadHeightmaps_` (source lines
499-502): `heightmapWidth_`/`heightmapHeight_` hold JS numbers or
`undefined` (`none`), and `numLoaded` counts completed slots. -/
structure LoadDims where
  heightmapWidth : Option ℕ
  heightmapHeight : Option ℕ
  numLoaded : ℕ
  deriving DecidableEq, Repr

/-- One run of the `onLoad` closure of `Image3D.loadHeightmaps_` (source
lines 504-522): record the first slot's dimensions, compare every later
slot against them with JS strict equality (`undefined === undefined` is
true), and fail fatally on mismatch.  Modelled from the spec:
`log_.assert_` (engine code, not under `src/`) aborts fatally on a false
condition (spec section 7); the abort is an `Except.error`. -/
def loadHeightmapsOnLoad (s : LoadDims) (hm : HeightmapSlotVal) :
    Except String LoadDims :=
  if s.numLoaded = 0 then
    Except.ok
      { heightmapWidth := hm.width, heightmapHeight := hm.height
        numLoaded := 1 }
  else if s.heightmapWidth = hm.width ∧ s.heightmapHeight = hm.height then
    Except.ok { s with numLoaded := s.numLoaded + 1 }
  else
    Except.error "All heightmaps must be the same size."

/-- `Image3D.loadHeightmaps_` dimension checking over the slots in arrival
order, starting from `heightmapWidth_ = heightmapHeight_ = 0`.  The final
`onComplete` callback — which triggers the geometry build — runs only if
every `onLoad` returned without a fatal assertion. -/
def loadHeightmapsCheck (hms : List HeightmapSlotVal) :
    Except String LoadDims :=
  List.foldlM loadHeightmapsOnLoad
    { heightmapWidth := some 0, heightmapHeight := some 0, numLoaded := 0 }
    hms

/-- The configuration fields of an `Image3D` model touched by the public
setters (source lines 214-258).  `imageSrc` is `none` while the model is
still uninitialised (`setUpViews` nulls it before the first
`setImageSrc`). -/
structure ImageModelState where
  geometryStyle : String
  heightSources : List String
  imageSrc : Option String
  maxHeight : ℚ
  transparent : Bool
  deriving DecidableEq, Repr

/-- Result of a public setter: the new configuration, the dispatched
change events, and the heavy side effects it starts (heightmap/texture
loads, geometry rebuilds, view updates). -/
structure SetterResult where
  state : ImageModelState
  events : List String
  actions : List String
  deriving DecidableEq, Repr

/-- `Image3D.setGeometryStyle` (source lines 592-612); the style-validity
asserts are preconditions of the call. -/
def Image3D.setGeometryStyle (s : ImageModelState) (geometryStyle : String) :
    SetterResult :=
  if s.geometryStyle ≠ geometryStyle then
    { state := { s with geometryStyle := geometryStyle }
      events := ["changeGeometryStyle"]
      actions := ["rebuildGeometry"] }
  else
    { state := s, events := [], actions := [] }

/-- `Image3D.setHeightmap` (source lines 624-650), with `getAbsoluteUrl_`
(engine code, not under `src/`) passed as the abstract function `abs`.
`optIndex` is the optional 1-based heightmap number. -/
def Image3D.setHeightmap (abs : String → String) (s : ImageModelState)
    (heightmap : String) (optIndex : Option ℕ) : SetterResult :=
  let heightmap := abs heightmap
  let index := match optIndex with
    | none => 0
    | some i => i - 1
  if s.heightSources[index]? = some heightmap then
    { state := s, events := [], actions := [] }
  else
    { state := { s with heightSources := s.heightSources.set index heightmap }
      events := [if index = 0 then "changeHeightmap"
                 else "changeHeightmap" ++ toString (index + 1)]
      actions := ["loadHeightmap"] }

/-- `Image3D.setImageSrc` (source lines 660-691).  The non-equal branch
updates the element's `src` when the element is an `img` and starts the
texture load whose completion rebuilds the geometry and mesh. -/
def Image3D.setImageSrc (abs : String → String) (s : ImageModelState)
    (imageSrc : String) : SetterResult :=
  let imageSrc := abs imageSrc
  if s.imageSrc = some imageSrc then
    { state := s, events := [], actions := [] }
  else
    let initialized := s.imageSrc ≠ none
    { state := { s with imageSrc := some imageSrc }
      events := if initialized then ["changeImageSrc"] else []
      actions := ["updateElementSrc", "loadImage"] }

/-- `Image3D.setMaxHeight` (source lines 701-716); the number/range asserts
are preconditions of the call. -/
def Image3D.setMaxHeight (s : ImageModelState) (maxHeight : ℚ) :
    SetterResult :=
  if s.maxHeight ≠ maxHeight then
    { state := { s with maxHeight := maxHeight }
      events := ["changeMaxHeight"]
      actions := ["rebuildGeometry"] }
  else
    { state := s, events := [], actions := [] }

/-- `Image3D.setTransparent` (source lines 755-771). -/
def Image3D.setTransparent (s : ImageModelState) (transparent : Bool) :
    SetterResult :=
  if s.transparent ≠ transparent then
    { state := { s with transparent := transparent }
      events := ["changeTransparent"]
      actions := ["setViewTransparent"] }
  else
    { state := s, events := [], actions := [] }

theorem length_flatMap_range {α : Type} (n w : ℕ) (f : ℕ → List α)
    (h : ∀ i, (f i).length = w) :
    ((List.range n).flatMap f).length = n * w := by
  induction n with
  | zero => simp
  | succ n ih =>
      rw [List.range_succ, List.flatMap_append]
      simp [ih, h, Nat.succ_mul]

theorem smoothVertices_length (width height : ℕ) (maxHeight : ℚ)
    (data : ℕ → ℚ) :
    (smoothVertices width height maxHeight data).length = width * height := by
  unfold smoothVertices
  rw [length_flatMap_range height width _ (fun i => by simp)]
  exact Nat.mul_comm height width

theorem smoothFaces_length (width height : ℕ) :
    (smoothFaces width height).length = (height - 1) * ((width - 1) * 2) := by
  unfold smoothFaces
  exact length_flatMap_range (height - 1) ((width - 1) * 2) _
    (fun i => length_flatMap_range (width - 1) 2 _ (fun j => rfl))

/-- C1: for a W×H heightmap with W, H ≥ 2, Smooth-style geometry has
exactly `W*H` vertices and `2*(W-1)*(H-1)` triangular faces, and each of
the four appended morph targets — reused or rebuilt vertex-only — has
exactly `W*H` vertices. -/
theorem smooth_geometry_counts (width height : ℕ) (hW : 2 ≤ width)
    (hH : 2 ≤ height) (imgW imgH maxHeight : ℚ)
    (datas : ℕ → Option (ℕ → ℚ)) :
    ((createGeometryRecord "smooth" width height imgW imgH maxHeight
        datas).vertices.length = width * height) ∧
    ((createGeometryRecord "smooth" width height imgW imgH maxHeight
        datas).faces.length = 2 * ((width - 1) * (height - 1))) ∧
    ((createGeometryRecord "smooth" width height imgW imgH maxHeight
        datas).morphTargets.length = 4) ∧
    (∀ mt ∈ (createGeometryRecord "smooth" width height imgW imgH maxHeight
        datas).morphTargets, mt.vertices.length = width * height) := by
  refine ⟨?_, ?_, ?_, ?_⟩
  · simp [createGeometryRecord, createHeightmapGeometryFull,
      smoothVertices_length]
  · simp [createGeometryRecord, createHeightmapGeometryFull,
      smoothFaces_length]
    ring
  · simp [createGeometryRecord]
  · intro mt hmt
    simp only [createGeometryRecord, List.mem_map, List.mem_range] at hmt
    obtain ⟨i, hi, rfl⟩ := hmt
    cases hdi : datas i with
    | none =>
        simp [hdi, createHeightmapGeometryFull, smoothVertices_length]
    | some d =>
        by_cases h0 : i = 0
        · simp [hdi, h0, createHeightmapGeometryFull, smoothVertices_length]
        · simp [hdi, h0, createHeightmapGeometryFull,
            createHeightmapGeometryVertices, smoothVertices_length]

/-- Witness for C1 at a concrete 2×2 heightmap. -/
theorem smooth_geometry_counts_witness :
    ((createGeometryRecord "smooth" 2 2 0 0 200
        (fun _ => some fun _ => 0)).vertices.length = 2 * 2) ∧
    ((createGeometryRecord "smooth" 2 2 0 0 200
        (fun _ => some fun _ => 0)).faces.length = 2 * ((2 - 1) * (2 - 1))) ∧
    ((createGeometryRecord "smooth" 2 2 0 0 200
        (fun _ => some fun _ => 0)).morphTargets.length = 4) ∧
    (∀ mt ∈ (createGeometryRecord "smooth" 2 2 0 0 200
        (fun _ => some fun _ => 0)).morphTargets,
      mt.vertices.length = 2 * 2) :=
  smooth_geometry_counts 2 2 (by norm_num) (by norm_num) 0 0 200 _

theorem blockTexel_faces_count (width height : ℕ) (imgW imgH : ℚ)
    (depths : ℕ → ℕ → ℚ) (s : BlockBuild) (y x : ℕ) :
    (blockTexel width height imgW imgH depths true s y x).faces.length =
      s.faces.length + 2
      + (if depths y x > (if x > 0 then depths y (x - 1) else 0)
         then 2 else 0)
      + (if depths y x > (if x < width - 1 then depths y (x + 1) else 0)
         then 2 else 0)
      + (if depths y x > (if y > 0 then depths (y - 1) x else 0)
         then 2 else 0)
      + (if depths y x > (if y < height - 1 then depths (y + 1) x else 0)
         then 2 else 0) := by
  unfold blockTexel
  by_cases h1 : depths y x > (if x > 0 then depths y (x - 1) else 0) <;>
    by_cases h2 : depths y x > (if x < width - 1 then depths y (x + 1) else 0) <;>
      by_cases h3 : depths y x > (if y > 0 then depths (y - 1) x else 0) <;>
        by_cases h4 : depths y x > (if y < height - 1 then depths (y + 1) x else 0) <;>
          simp [h1, h2, h3, h4]

theorem blockTexel_faces_flat (width height : ℕ) (imgW imgH : ℚ)
    (depths : ℕ → ℕ → ℚ) (hflat : ∀ y x, depths y x = 0) (s : BlockBuild)
    (y x : ℕ) :
    (blockTexel width height imgW imgH depths true s y x).faces.length =
      s.faces.length + 2 := by
  rw [blockTexel_faces_count]
  simp [hflat]

theorem foldl_faces_const {α : Type} (g : BlockBuild → α → BlockBuild)
    (c : ℕ) (h : ∀ s a, (g s a).faces.length = s.faces.length + c)
    (l : List α) (s : BlockBuild) :
    (l.foldl g s).faces.length = s.faces.length + c * l.length := by
  induction l generalizing s with
  | nil => simp
  | cons a t ih =>
      rw [List.foldl_cons, ih, h]
      simp
      ring

/-- C2 (amended): a heightmap whose texels all have depth 0 yields only the
front quads — exactly `2*W*H` faces — and in general a texel emits the two
triangles of a side quad in a direction exactly when the depth of the
neighbor in that direction, taken as 0 outside the image, is strictly less
than the texel's own depth (so a flat heightmap at a positive depth still
emits boundary side quads). -/
theorem block_culling (width height : ℕ) (imgW imgH maxHeight : ℚ) :
    (∀ data : ℕ → ℚ, (∀ y x, blockDepths width maxHeight data y x = 0) →
      (blockBuild width height imgW imgH maxHeight data true).faces.length =
        2 * (width * height)) ∧
    (∀ (depths : ℕ → ℕ → ℚ) (s : BlockBuild) (y x : ℕ),
      (blockTexel width height imgW imgH depths true s y x).faces.length =
        s.faces.length + 2
        + (if depths y x > (if x > 0 then depths y (x - 1) else 0)
           then 2 else 0)
        + (if depths y x > (if x < width - 1 then depths y (x + 1) else 0)
           then 2 else 0)
        + (if depths y x > (if y > 0 then depths (y - 1) x else 0)
           then 2 else 0)
        + (if depths y x > (if y < height - 1 then depths (y + 1) x else 0)
           then 2 else 0)) := by
  constructor
  · intro data hflat
    unfold blockBuild
    rw [foldl_faces_const _ (2 * width)
      (fun s a => by
        rw [foldl_faces_const _ 2
          (fun s' x => blockTexel_faces_flat width height imgW imgH _
            hflat s' a x)]
        simp)]
    simp [List.length_range]
    ring
  · intro depths s y x
    exact blockTexel_faces_count width height imgW imgH depths s y x

/-- Witness for C2 at a concrete all-zero 2×2 heightmap and one concrete
texel step. -/
theorem block_culling_witness :
    ((blockBuild 2 2 1 1 200 (fun _ => 0) true).faces.length =
      2 * (2 * 2)) ∧
    ((blockTexel 2 2 1 1 (blockDepths 2 200 fun _ => 0) true
        { v := 0, vertices := [], faces := [], faceVertexUvs := [] }
        0 0).faces.length = 2) := by
  constructor
  · exact (block_culling 2 2 1 1 200).1 (fun _ => 0)
      (fun y x => by norm_num [blockDepths, getDepth])
  · have h := (block_culling 2 2 1 1 200).2 (blockDepths 2 200 fun _ => 0)
      { v := 0, vertices := [], faces := [], faceVertexUvs := [] } 0 0
    simpa [blockDepths, getDepth] using h

/-- Counterexample to C2 as stated: a 2×2 heightmap whose four texels all
have the same positive depth 200 produces 24 faces, not `2*W*H = 8` — the
boundary texels emit side quads against the implicit outside depth 0. -/
theorem block_flat_positive_counterexample :
    (blockDepths 2 200 (fun _ => 255) 0 0 = 200 ∧
     blockDepths 2 200 (fun _ => 255) 0 1 = 200 ∧
     blockDepths 2 200 (fun _ => 255) 1 0 = 200 ∧
     blockDepths 2 200 (fun _ => 255) 1 1 = 200) ∧
    (blockBuild 2 2 1 1 200 (fun _ => 255) true).faces.length = 24 ∧
    (24 : ℕ) ≠ 2 * (2 * 2) := by
  refine ⟨⟨by norm_num [blockDepths, getDepth], by norm_num [blockDepths, getDepth],
    by norm_num [blockDepths, getDepth], by norm_num [blockDepths, getDepth]⟩, ?_, by norm_num⟩
  show (blockBuild 2 2 1 1 200 (fun _ => 255) true).faces.length = 24
  unfold blockBuild
  simp only [List.range_succ, List.range_zero, List.nil_append,
    List.cons_append, List.foldl_cons, List.foldl_nil]
  rw [blockTexel_faces_count, blockTexel_faces_count, blockTexel_faces_count,
    blockTexel_faces_count]
  norm_num [blockDepths, getDepth]

theorem jnum_one : (1 : JNum) = JNum.num 1 := rfl

theorem jnum_zero : (0 : JNum) = JNum.num 0 := rfl

/-- C3: while Morphing, an update tick computes
`t = (now - morphStartTime) / morphDuration`; when `t > 1` it finalizes
(`currentWeights := endWeights`, copied into `startWeights`, Morphing
cleared, final weights pushed, "morph end" dispatched); otherwise it sets
`current[i] = start[i]*(1-t) + end[i]*t` and pushes the weights, so at
`t = 1/2` each pair of ordinary start/end components averages. -/
theorem morph_update_tick (s : MorphState) (now : ℚ)
    (hm : s.morphing = true) :
    (jgt (jdiv (now - s.morphStartTime) s.morphDuration) 1 = true →
      (Image3D.update s now).state.currentMorphTargets = s.endMorphTargets ∧
      (Image3D.update s now).state.startMorphTargets = s.endMorphTargets ∧
      (Image3D.update s now).state.morphing = false ∧
      (Image3D.update s now).pushes = [s.endMorphTargets] ∧
      (Image3D.update s now).events = ["morphEnd"]) ∧
    (jgt (jdiv (now - s.morphStartTime) s.morphDuration) 1 = false →
      (Image3D.update s now).state.currentMorphTargets =
        List.zipWith (fun st en =>
          jadd
            (jmul st (jsub 1 (jdiv (now - s.morphStartTime) s.morphDuration)))
            (jmul en (jdiv (now - s.morphStartTime) s.morphDuration)))
          s.startMorphTargets s.endMorphTargets ∧
      (Image3D.update s now).pushes =
        [(Image3D.update s now).state.currentMorphTargets] ∧
      (Image3D.update s now).events = [] ∧
      (Image3D.update s now).state.morphing = true) ∧
    (0 < s.morphDuration → now - s.morphStartTime = s.morphDuration / 2 →
      ∀ (i : ℕ) (a b : ℚ),
        s.startMorphTargets.get? i = some (JNum.num a) →
        s.endMorphTargets.get? i = some (JNum.num b) →
        (Image3D.update s now).state.currentMorphTargets.get? i =
          some (JNum.num ((a + b) / 2))) := by
  refine ⟨?_, ?_, ?_⟩
  · intro hgt
    simp only [Image3D.update, hm, if_true, hgt]
    simp
  · intro hgt
    simp only [Image3D.update, hm, if_true, hgt]
    simp
  · intro hdur hhalf i a b hsa hsb
    have hdiv : jdiv (now - s.morphStartTime) s.morphDuration =
        JNum.num (1 / 2) := by
      unfold jdiv
      rw [if_neg (ne_of_gt hdur), hhalf]
      congr 1
      field_simp
      ring
    have hgt2 : jgt (JNum.num (1 / 2)) 1 = false := by
      show jgt (JNum.num (1 / 2)) (JNum.num 1) = false
      simp [jgt]
      norm_num
    simp only [Image3D.update, hm, if_true, hdiv, hgt2, Bool.false_eq_true,
      if_false]
    simp only [List.get?_eq_getElem?] at hsa hsb ⊢
    rw [List.getElem?_zipWith', hsa, hsb]
    simp [jsub, jmul, jadd, jnum_one]
    ring

/-- Witness for C3: a concrete morph state halfway through a 2000 ms
transition from `[1,0,0,0]` toward `[0,1,0,0]`, ticked at `t = 1/2`:
component 0 becomes the mean `(1+0)/2`. -/
theorem morph_update_tick_witness :
    (Image3D.update
      { morphing := true, morphStartTime := 0, morphDuration := 2000
        morphElapsed := 0, startMorphTargets := [1, 0, 0, 0]
        currentMorphTargets := [1, 0, 0, 0]
        endMorphTargets := [0, 1, 0, 0] }
      1000).state.currentMorphTargets.get? 0 =
      some (JNum.num ((1 + 0) / 2)) :=
  (morph_update_tick
    { morphing := true, morphStartTime := 0, morphDuration := 2000
      morphElapsed := 0, startMorphTargets := [1, 0, 0, 0]
      currentMorphTargets := [1, 0, 0, 0]
      endMorphTargets := [0, 1, 0, 0] }
    1000 rfl).2.2 (by norm_num) (by norm_num) 0 1 0 rfl rfl

/-- C7 (code bug): index 0 passes the precondition asserted by `morph`
(`index >= 0 && index < 4`), yet `morph(0, 0)` builds the all-zero
influence vector — the one-hot write targets array slot `-1` — so start,
end and current weights are set to `[0,0,0,0]`, which is not the one-hot
vector of any slot; the function's own doc comment says the index ranges
over 1-4. -/
theorem morph_index_zero_bug :
    morphPre 0 ∧
    morphTargetInfluences 0 = [0, 0, 0, 0] ∧
    (Image3D.morph MorphState.initial 0 0 0).state.currentMorphTargets =
      [0, 0, 0, 0] ∧
    (Image3D.morph MorphState.initial 0 0 0).state.startMorphTargets =
      [0, 0, 0, 0] ∧
    (Image3D.morph MorphState.initial 0 0 0).state.endMorphTargets =
      [0, 0, 0, 0] ∧
    ([0, 0, 0, 0] : List JNum) ≠ [1, 0, 0, 0] ∧
    ([0, 0, 0, 0] : List JNum) ≠ [0, 1, 0, 0] ∧
    ([0, 0, 0, 0] : List JNum) ≠ [0, 0, 1, 0] ∧
    ([0, 0, 0, 0] : List JNum) ≠ [0, 0, 0, 1] := by
  refine ⟨by norm_num [morphPre], rfl, ?_, ?_, ?_, ?_, ?_, ?_, ?_⟩ <;>
    simp [Image3D.morph, morphTargetInfluences, MorphState.initial,
      jnum_zero, jnum_one]

/-- C8: `setMorphing(false)` while Morphing freezes the elapsed time and
clears the flag without touching any weight vector; `setMorphing(true)`
afterwards shifts the effective start time by the frozen elapsed value, so
the progress ratio at any later instant equals that of an uninterrupted
run displaced by the pause gap, and the transition completes exactly when
the active (unpaused) wall time exceeds the original duration. -/
theorem setMorphing_pause_resume (s : MorphState) (t1 t2 t : ℚ)
    (hm : s.morphing = true) (hdur : 0 < s.morphDuration) :
    (Image3D.setMorphing s false t1).morphing = false ∧
    (Image3D.setMorphing s false t1).morphElapsed =
      t1 - s.morphStartTime ∧
    (Image3D.setMorphing s false t1).currentMorphTargets =
      s.currentMorphTargets ∧
    (Image3D.setMorphing s false t1).startMorphTargets =
      s.startMorphTargets ∧
    (Image3D.setMorphing s false t1).endMorphTargets =
      s.endMorphTargets ∧
    (Image3D.setMorphing (Image3D.setMorphing s false t1) true t2).morphing =
      true ∧
    (Image3D.setMorphing (Image3D.setMorphing s false t1) true
        t2).morphStartTime = t2 - (t1 - s.morphStartTime) ∧
    (Image3D.setMorphing (Image3D.setMorphing s false t1) true
        t2).morphDuration = s.morphDuration ∧
    (jgt (jdiv
        (t - (Image3D.setMorphing (Image3D.setMorphing s false t1) true
          t2).morphStartTime)
        s.morphDuration) 1 = true ↔
      s.morphDuration < (t - t2) + (t1 - s.morphStartTime)) := by
  have hp : Image3D.setMorphing s false t1 =
      { s with morphing := false, morphElapsed := t1 - s.morphStartTime } := by
    simp [Image3D.setMorphing, hm]
  have hr : Image3D.setMorphing (Image3D.setMorphing s false t1) true t2 =
      { s with
        morphing := true
        morphElapsed := t1 - s.morphStartTime
        morphStartTime := t2 - (t1 - s.morphStartTime) } := by
    rw [hp]
    simp [Image3D.setMorphing]
  refine ⟨by rw [hp], by rw [hp], by rw [hp], by rw [hp], by rw [hp],
    by rw [hr], by rw [hr], by rw [hr], ?_⟩
  rw [hr]
  show jgt (jdiv (t - (t2 - (t1 - s.morphStartTime))) s.morphDuration) 1 =
      true ↔ _
  unfold jdiv
  rw [if_neg (ne_of_gt hdur)]
  show jgt (JNum.num _) (JNum.num 1) = true ↔ _
  simp only [jgt, decide_eq_true_eq]
  rw [gt_iff_lt, lt_div_iff hdur]
  constructor <;> intro h <;> linarith

/-- Witness for C8: a 2000 ms morph started at time 0, paused at 1000,
resumed at 5000; at time 6001 the active time is 2001 ms > 2000 ms, so the
tick finalizes. -/
theorem setMorphing_pause_resume_witness :
    (Image3D.setMorphing
      { morphing := true, morphStartTime := 0, morphDuration := 2000
        morphElapsed := 0, startMorphTargets := [1, 0, 0, 0]
        currentMorphTargets := [1, 0, 0, 0]
        endMorphTargets := [0, 1, 0, 0] }
      false 1000).morphing = false ∧
    (Image3D.setMorphing
      { morphing := true, morphStartTime := 0, morphDuration := 2000
        morphElapsed := 0, startMorphTargets := [1, 0, 0, 0]
        currentMorphTargets := [1, 0, 0, 0]
        endMorphTargets := [0, 1, 0, 0] }
      false 1000).morphElapsed = 1000 - 0 ∧
    (Image3D.setMorphing
      { morphing := true, morphStartTime := 0, morphDuration := 2000
        morphElapsed := 0, startMorphTargets := [1, 0, 0, 0]
        currentMorphTargets := [1, 0, 0, 0]
        endMorphTargets := [0, 1, 0, 0] }
      false 1000).currentMorphTargets = [1, 0, 0, 0] ∧
    (Image3D.setMorphing
      { morphing := true, morphStartTime := 0, morphDuration := 2000
        morphElapsed := 0, startMorphTargets := [1, 0, 0, 0]
        currentMorphTargets := [1, 0, 0, 0]
        endMorphTargets := [0, 1, 0, 0] }
      false 1000).startMorphTargets = [1, 0, 0, 0] ∧
    (Image3D.setMorphing
      { morphing := true, morphStartTime := 0, morphDuration := 2000
        morphElapsed := 0, startMorphTargets := [1, 0, 0, 0]
        currentMorphTargets := [1, 0, 0, 0]
        endMorphTargets := [0, 1, 0, 0] }
      false 1000).endMorphTargets = [0, 1, 0, 0] ∧
    (Image3D.setMorphing (Image3D.setMorphing
      { morphing := true, morphStartTime := 0, morphDuration := 2000
        morphElapsed := 0, startMorphTargets := [1, 0, 0, 0]
        currentMorphTargets := [1, 0, 0, 0]
        endMorphTargets := [0, 1, 0, 0] }
      false 1000) true 5000).morphing = true ∧
    (Image3D.setMorphing (Image3D.setMorphing
      { morphing := true, morphStartTime := 0, morphDuration := 2000
        morphElapsed := 0, startMorphTargets := [1, 0, 0, 0]
        currentMorphTargets := [1, 0, 0, 0]
        endMorphTargets := [0, 1, 0, 0] }
      false 1000) true 5000).morphStartTime = 5000 - (1000 - 0) ∧
    (Image3D.setMorphing (Image3D.setMorphing
      { morphing := true, morphStartTime := 0, morphDuration := 2000
        morphElapsed := 0, startMorphTargets := [1, 0, 0, 0]
        currentMorphTargets := [1, 0, 0, 0]
        endMorphTargets := [0, 1, 0, 0] }
      false 1000) true 5000).morphDuration = 2000 ∧
    (jgt (jdiv
        ((6001 : ℚ) - (Image3D.setMorphing (Image3D.setMorphing
          { morphing := true, morphStartTime := 0, morphDuration := 2000
            morphElapsed := 0, startMorphTargets := [1, 0, 0, 0]
            currentMorphTargets := [1, 0, 0, 0]
            endMorphTargets := [0, 1, 0, 0] }
          false 1000) true 5000).morphStartTime)
        2000) 1 = true ↔
      (2000 : ℚ) < ((6001 : ℚ) - 5000) + (1000 - 0)) :=
  setMorphing_pause_resume
    { morphing := true, morphStartTime := 0, morphDuration := 2000
      morphElapsed := 0, startMorphTargets := [1, 0, 0, 0]
      currentMorphTargets := [1, 0, 0, 0]
      endMorphTargets := [0, 1, 0, 0] }
    1000 5000 6001 rfl (by norm_num)

theorem zipWith_const_nan (l1 l2 : List JNum) (f : JNum → JNum → JNum)
    (hf : ∀ a b, f a b = JNum.nan) :
    ∀ w ∈ List.zipWith f l1 l2, w = JNum.nan := by
  induction l1 generalizing l2 with
  | nil => simp
  | cons a t ih =>
      cases l2 with
      | nil => simp
      | cons b t2 =>
          intro w hw
          rcases List.mem_cons.mp hw with h | h
          · rw [h]; exact hf a b
          · exact ih t2 w h

/-- C10: `setMorphing(true)` on the idle, never-morphed animator
(`morphDuration = 0`, `morphElapsed = 0`) raises the Morphing flag even
though no transition exists; the next tick divides by the zero duration
unguarded — at a strictly later instant the progress is `+∞ > 1`, so the
morph finalizes at once and dispatches "morphEnd" (no "morphBegin" is ever
dispatched: `setMorphing` emits no event), while at the very same instant
the progress is `0/0 = NaN`, the comparison with 1 is false, and the
interpolation writes `NaN` into every component of the current weights. -/
theorem setMorphing_zero_duration (s : MorphState) (t0 t : ℚ)
    (hm : s.morphing = false) (hdur : s.morphDuration = 0)
    (hel : s.morphElapsed = 0) :
    (Image3D.setMorphing s true t0).morphing = true ∧
    (t0 < t →
      (Image3D.update (Image3D.setMorphing s true t0) t).events =
        ["morphEnd"] ∧
      (Image3D.update (Image3D.setMorphing s true t0) t).state.morphing =
        false) ∧
    ((Image3D.update (Image3D.setMorphing s true t0)
        t0).state.currentMorphTargets.length =
      min s.startMorphTargets.length s.endMorphTargets.length ∧
     ∀ w ∈ (Image3D.update (Image3D.setMorphing s true t0)
        t0).state.currentMorphTargets, w = JNum.nan) := by
  have hr : Image3D.setMorphing s true t0 =
      { s with morphing := true, morphStartTime := t0 - s.morphElapsed } := by
    simp [Image3D.setMorphing, hm]
  refine ⟨by rw [hr], ?_, ?_⟩
  · intro hlt
    have hdiv : jdiv (t - (t0 - s.morphElapsed)) s.morphDuration =
        JNum.posInf := by
      unfold jdiv
      rw [hdur, if_pos rfl, if_pos (by rw [hel]; linarith)]
    rw [hr]
    constructor <;>
      simp [Image3D.update, hdiv, jgt, jnum_one]
  · have e1 : t0 - (t0 - s.morphElapsed) = s.morphElapsed := by ring
    have hdiv : jdiv s.morphElapsed s.morphDuration = JNum.nan := by
      rw [hel, hdur]
      unfold jdiv
      norm_num
    have hgt : jgt JNum.nan 1 = false := rfl
    have hf : ∀ a b : JNum,
        jadd (jmul a (jsub 1 JNum.nan)) (jmul b JNum.nan) = JNum.nan := by
      intro a b
      cases a <;> cases b <;> rfl
    rw [hr]
    constructor
    · simp [Image3D.update, e1, hgt, hdiv]
    · simp only [Image3D.update, e1, hgt, hdiv, Bool.false_eq_true,
        if_false, if_true]
      exact zipWith_const_nan _ _ _ hf

/-- Witness for C10 starting from the freshly initialised animator at
`t0 = 0`, ticked at `t = 1` (finalizes) and at `t = 0` (all-NaN). -/
theorem setMorphing_zero_duration_witness :
    (Image3D.setMorphing MorphState.initial true 0).morphing = true ∧
    ((0 : ℚ) < 1 →
      (Image3D.update (Image3D.setMorphing MorphState.initial true 0)
        1).events = ["morphEnd"] ∧
      (Image3D.update (Image3D.setMorphing MorphState.initial true 0)
        1).state.morphing = false) ∧
    ((Image3D.update (Image3D.setMorphing MorphState.initial true 0)
        0).state.currentMorphTargets.length =
      min MorphState.initial.startMorphTargets.length
        MorphState.initial.endMorphTargets.length ∧
     ∀ w ∈ (Image3D.update (Image3D.setMorphing MorphState.initial true 0)
        0).state.currentMorphTargets, w = JNum.nan) :=
  setMorphing_zero_duration MorphState.initial 0 1 rfl rfl rfl

/-- C9: every public configuration setter called with a value equal to the
current one (for URL setters: whose absolutized form equals the stored,
already-absolutized value) is a no-op — same state, no change event, no
load/rebuild side effect. -/
theorem setters_equal_value_noop (abs : String → String)
    (s : ImageModelState) :
    (Image3D.setGeometryStyle s s.geometryStyle =
      { state := s, events := [], actions := [] }) ∧
    (Image3D.setMaxHeight s s.maxHeight =
      { state := s, events := [], actions := [] }) ∧
    (Image3D.setTransparent s s.transparent =
      { state := s, events := [], actions := [] }) ∧
    (∀ u, s.imageSrc = some (abs u) →
      Image3D.setImageSrc abs s u =
        { state := s, events := [], actions := [] }) ∧
    (∀ u optIndex,
      s.heightSources[(match optIndex with
        | none => 0
        | some i => i - 1 : ℕ)]? = some (abs u) →
      Image3D.setHeightmap abs s u optIndex =
        { state := s, events := [], actions := [] }) := by
  refine ⟨?_, ?_, ?_, ?_, ?_⟩
  · simp [Image3D.setGeometryStyle]
  · simp [Image3D.setMaxHeight]
  · simp [Image3D.setTransparent]
  · intro u hu
    simp [Image3D.setImageSrc, hu]
  · intro u optIndex hu
    simp only [Image3D.setHeightmap]
    rw [if_pos hu]

/-- Witness for C9 on a concrete configuration, with the identity as the
URL absolutizer. -/
theorem setters_equal_value_noop_witness :
    (Image3D.setGeometryStyle
      { geometryStyle := "smooth", heightSources := ["h1", "", "", ""]
        imageSrc := some "img.png", maxHeight := 200, transparent := true }
      "smooth" =
      { state :=
          { geometryStyle := "smooth", heightSources := ["h1", "", "", ""]
            imageSrc := some "img.png", maxHeight := 200
            transparent := true }
        events := [], actions := [] }) ∧
    (Image3D.setImageSrc (fun u => u)
      { geometryStyle := "smooth", heightSources := ["h1", "", "", ""]
        imageSrc := some "img.png", maxHeight := 200, transparent := true }
      "img.png" =
      { state :=
          { geometryStyle := "smooth", heightSources := ["h1", "", "", ""]
            imageSrc := some "img.png", maxHeight := 200
            transparent := true }
        events := [], actions := [] }) ∧
    (Image3D.setHeightmap (fun u => u)
      { geometryStyle := "smooth", heightSources := ["h1", "", "", ""]
        imageSrc := some "img.png", maxHeight := 200, transparent := true }
      "h1" (some 1) =
      { state :=
          { geometryStyle := "smooth", heightSources := ["h1", "", "", ""]
            imageSrc := some "img.png", maxHeight := 200
            transparent := true }
        events := [], actions := [] }) :=
  ⟨(setters_equal_value_noop (fun u => u)
      { geometryStyle := "smooth", heightSources := ["h1", "", "", ""]
        imageSrc := some "img.png", maxHeight := 200
        transparent := true }).1,
   (setters_equal_value_noop (fun u => u)
      { geometryStyle := "smooth", heightSources := ["h1", "", "", ""]
        imageSrc := some "img.png", maxHeight := 200
        transparent := true }).2.2.2.1 "img.png" rfl,
   (setters_equal_value_noop (fun u => u)
      { geometryStyle := "smooth", heightSources := ["h1", "", "", ""]
        imageSrc := some "img.png", maxHeight := 200
        transparent := true }).2.2.2.2 "h1" (some 1) rfl⟩

theorem geometryKey_imageSrc_inj (i i' h1 h2 h3 h4 : String) (m : ℚ)
    (g : String) :
    geometryKey i h1 h2 h3 h4 m g = geometryKey i' h1 h2 h3 h4 m g ↔
      i = i' := by
  constructor
  · intro h
    unfold geometryKey at h
    have hd := congrArg String.data h
    simp only [String.data_append, List.append_assoc] at hd
    have hd2 := List.append_cancel_left hd
    have hd3 := List.append_cancel_right hd2
    cases i
    cases i'
    exact congrArg String.mk hd3
  · intro h
    rw [h]

/-- C5 (amended): the geometry cache key is determined by the full tuple
(imageSrc, the four heightmap sources, maxHeight, geometryStyle); with the
other components fixed, two builds get the same key exactly when their
`imageSrc` coincides — identical (heightmap sources, maxHeight, style)
alone does not suffice, because the key embeds `imageSrc` as well.  The
original no-false-positives guarantee (distinct geometry never shares a
key) does not hold either: the key is plain concatenation, so distinct
heightmap source tuples can collide by separator injection (see the
counterexample). -/
theorem geometry_cache_key (i i' h1 h2 h3 h4 : String) (m : ℚ)
    (g : String) :
    geometryKey i h1 h2 h3 h4 m g = geometryKey i' h1 h2 h3 h4 m g ↔
      i = i' :=
  geometryKey_imageSrc_inj i i' h1 h2 h3 h4 m g

/-- Counterexample to C5 as stated: (i) two builds with identical heightmap
sources, maxHeight and style but different texture sources get different
keys, refuting same-tuple determinism; (ii) the key is plain string
concatenation, so two configurations with different heightmap source
tuples collide on one key by separator injection, while the built geometry
is steered by the buffer a source loads (shown on slot 0: an all-0 and an
all-255 buffer give different vertices), refuting the no-false-positives
guarantee that distinct geometry never shares a key. -/
theorem geometry_cache_key_counterexample :
    (geometryKey "http://e/a.png" "h.png" "" "" "" 200 "smooth" ≠
      geometryKey "http://e/b.png" "h.png" "" "" "" 200 "smooth") ∧
    (geometryKey "x" "p, heightSrc2: q" "r" "" "" 200 "smooth" =
      geometryKey "x" "p" "q, heightSrc2: r" "" "" 200 "smooth") ∧
    (("p, heightSrc2: q", "r") ≠
      (("p" : String), ("q, heightSrc2: r" : String))) ∧
    ((createGeometryRecord "smooth" 2 2 1 1 200
        (fun i => if i = 0 then some fun _ => 0 else none)).vertices.get? 0 =
      some ⟨0, 0, 0⟩) ∧
    ((createGeometryRecord "smooth" 2 2 1 1 200
        (fun i => if i = 0 then some fun _ => 255 else none)).vertices.get? 0 =
      some ⟨0, 0, 200⟩) ∧
    ((⟨0, 0, 0⟩ : Vec3) ≠ ⟨0, 0, 200⟩) := by
  refine ⟨?_, by decide, by decide, ?_, ?_, by decide⟩
  · intro h
    have := (geometryKey_imageSrc_inj "http://e/a.png" "http://e/b.png"
      "h.png" "" "" "" 200 "smooth").mp h
    exact absurd this (by decide)
  · norm_num [createGeometryRecord, createHeightmapGeometryFull,
      smoothVertices, getDepth, List.range_succ, Vec3.mk.injEq]
  · norm_num [createGeometryRecord, createHeightmapGeometryFull,
      smoothVertices, getDepth, List.range_succ, Vec3.mk.injEq]

/-- C4 (code bug): on a first-time load, `loadHeightmap_` inserts a pending
cache entry for the heightmap key; when the decode completes, the `onLoad`
handler — after confirming with `has` that the key is present and calling
`addRef` on it — still calls `set` on the very same key, which under the
specified cache contract fails with `KeyCollision` (the handler replaces
the pending payload with a fresh object instead of mutating it once from
"pending" to "loaded"). -/
theorem onLoad_set_key_collision :
    (loadHeightmapFreshCacheOps [] "http://e/hm.png" 4 4 =
      Except.ok
        [{ key := "http://e/hm.png"
           payload :=
             { imageWidth := 4, imageHeight := 4, hasData := false
               notifiers := 0 }
           refcount := 1 }]) ∧
    (onLoadCacheOps
      [{ key := "http://e/hm.png"
         payload :=
           { imageWidth := 4, imageHeight := 4, hasData := false
             notifiers := 0 }
         refcount := 1 }]
      "http://e/hm.png"
      { imageWidth := 4, imageHeight := 4, hasData := true
        notifiers := 0 } =
      Except.error CacheError.keyCollision) := by
  constructor <;> rfl

/-- C6 (code bug): when two heightmap slots both resolve through the
fully-loaded cache branch, `loadHeightmap_` stores the cache payload object
— whose `width`/`height` are `undefined` — instead of its `heightmap`
image, so the equal-dimension assertion compares `undefined === undefined`
and passes even though the underlying images are 2×2 and 3×3, and the
geometry build proceeds; the same mismatch on correctly stored images is
caught fatally. -/
theorem cached_slot_dimension_check_bug :
    (loadHeightmapsCheck
      [HeightmapSlotVal.cachePayload
        { imageWidth := 2, imageHeight := 2, hasData := true
          notifiers := 0 },
       HeightmapSlotVal.cachePayload
        { imageWidth := 3, imageHeight := 3, hasData := true
          notifiers := 0 }] =
      Except.ok
        { heightmapWidth := none, heightmapHeight := none
          numLoaded := 2 }) ∧
    ((2 : ℕ) ≠ 3) ∧
    (loadHeightmapsCheck
      [HeightmapSlotVal.image 2 2, HeightmapSlotVal.image 3 3] =
      Except.error "All heightmaps must be the same size.") := by
  refine ⟨rfl, by decide, rfl⟩
